import Mathlib

/-!
Shallow embedding of the WebGL fluid simulation engine of
`src/docs/fluid-simulation.js` (class `FluidSimulation` and the module-level
helpers `initFluidSimulation`, `injectSplat`, `drawFluidToCanvas`).

GPU textures are modelled as total functions from continuous UV coordinates to
texel values (`texture2D tex uv = tex uv`); a fragment shader becomes a pure
function from its sampled inputs and uniforms to the per-texel output, and a
`blit` into the write buffer of a double FBO followed by `swap()` becomes
`DoubleFBO.commit`.  Shader floating point arithmetic is idealised over `ℝ`.
The grid-resolution planner works over `ℚ`, with JavaScript `Math.round`
modelled by Mathlib `round` (both are `⌊x + 1/2⌋`).
-/

namespace FluidSpec

/-- A GPU 2D texture, modelled as a function from UV coordinates to texel
values, as sampled by `texture2D`. -/
def Field (α : Type) : Type := ℝ × ℝ → α

/-- A double-buffered framebuffer pair as built by `createDoubleFBO`:
a `read` texture, a `write` texture and the derived texel size. -/
structure DoubleFBO (α : Type) where
  read : Field α
  write : Field α
  texelSizeX : ℝ
  texelSizeY : ℝ

/-- The `swap` closure of `createDoubleFBO`: exchanges the two buffers. -/
def DoubleFBO.swap {α : Type} (f : DoubleFBO α) : DoubleFBO α :=
  { f with read := f.write, write := f.read }

/-- Blit a full-grid pass output into the write buffer, then `swap()`:
the new read buffer is the pass output and the new write buffer is the old
read buffer. -/
def DoubleFBO.commit {α : Type} (f : DoubleFBO α) (out : Field α) : DoubleFBO α :=
  { f with read := out, write := f.read }

/-- Left-neighbour varying `vL` computed by the shared vertex shader. -/
def vL (uv t : ℝ × ℝ) : ℝ × ℝ := (uv.1 - t.1, uv.2)

/-- Right-neighbour varying `vR` computed by the shared vertex shader. -/
def vR (uv t : ℝ × ℝ) : ℝ × ℝ := (uv.1 + t.1, uv.2)

/-- Top-neighbour varying `vT` computed by the shared vertex shader. -/
def vT (uv t : ℝ × ℝ) : ℝ × ℝ := (uv.1, uv.2 + t.2)

/-- Bottom-neighbour varying `vB` computed by the shared vertex shader. -/
def vB (uv t : ℝ × ℝ) : ℝ × ℝ := (uv.1, uv.2 - t.2)

/-- GLSL `length` on a 2-vector. -/
noncomputable def glLength (v : ℝ × ℝ) : ℝ := Real.sqrt (v.1 * v.1 + v.2 * v.2)

/-- The splat fragment shader (`splatShader` in `createPrograms`):
`p = vUv - point; p.x *= aspectRatio; gl_FragColor = vec4(base + exp(-dot(p,p)/radius) * color, 1.0)`. -/
noncomputable def splatShader (uTarget : Field (ℝ × ℝ × ℝ)) (aspect : ℝ)
    (color : ℝ × ℝ × ℝ) (point : ℝ × ℝ) (radius : ℝ) : Field (ℝ × ℝ × ℝ) :=
  fun vUv =>
    let p : ℝ × ℝ := ((vUv.1 - point.1) * aspect, vUv.2 - point.2)
    let s : ℝ := Real.exp (-(p.1 * p.1 + p.2 * p.2) / radius)
    let base := uTarget vUv
    (base.1 + s * color.1, base.2.1 + s * color.2.1, base.2.2 + s * color.2.2)

/-- The advection fragment shader (`advectionShader`):
`coord = vUv - dt * texture2D(uVelocity, vUv).xy * texelSize;
gl_FragColor = dissipation * texture2D(uSource, coord)`. -/
noncomputable def advectionShader {α : Type} [SMul ℝ α]
    (uVelocity : Field (ℝ × ℝ)) (uSource : Field α) (texelSize : ℝ × ℝ)
    (dt dissipation : ℝ) : Field α :=
  fun vUv =>
    let v := uVelocity vUv
    let coord : ℝ × ℝ := (vUv.1 - dt * v.1 * texelSize.1, vUv.2 - dt * v.2 * texelSize.2)
    dissipation • uSource coord

/-- The divergence fragment shader (`divergenceShader`). -/
noncomputable def divergenceShader (uVelocity : Field (ℝ × ℝ)) (t : ℝ × ℝ) : Field ℝ :=
  fun vUv =>
    let L := (uVelocity (vL vUv t)).1
    let R := (uVelocity (vR vUv t)).1
    let T := (uVelocity (vT vUv t)).2
    let B := (uVelocity (vB vUv t)).2
    0.5 * (R - L + T - B)

/-- The curl fragment shader (`curlShader`). -/
noncomputable def curlShader (uVelocity : Field (ℝ × ℝ)) (t : ℝ × ℝ) : Field ℝ :=
  fun vUv =>
    let L := (uVelocity (vL vUv t)).2
    let R := (uVelocity (vR vUv t)).2
    let T := (uVelocity (vT vUv t)).1
    let B := (uVelocity (vB vUv t)).1
    0.5 * (R - L - T + B)

/-- The vorticity-confinement fragment shader (`vorticityShader`):
`force = 0.5 * vec2(abs(T) - abs(B), abs(R) - abs(L));
force /= length(force) + 0.0001; force *= curl * C; force.y *= -1.0;
gl_FragColor = vec4(vel + force * dt, 0.0, 1.0)`. -/
noncomputable def vorticityShader (uVelocity : Field (ℝ × ℝ)) (uCurl : Field ℝ)
    (curl dt : ℝ) (t : ℝ × ℝ) : Field (ℝ × ℝ) :=
  fun vUv =>
    let L := uCurl (vL vUv t)
    let R := uCurl (vR vUv t)
    let T := uCurl (vT vUv t)
    let B := uCurl (vB vUv t)
    let C := uCurl vUv
    let force0 : ℝ × ℝ := (0.5 * (|T| - |B|), 0.5 * (|R| - |L|))
    let len : ℝ := glLength force0 + 0.0001
    let force1 : ℝ × ℝ := (force0.1 / len, force0.2 / len)
    let force2 : ℝ × ℝ := (curl * C * force1.1, curl * C * force1.2)
    let force3 : ℝ × ℝ := (force2.1, force2.2 * (-1))
    let vel := uVelocity vUv
    (vel.1 + force3.1 * dt, vel.2 + force3.2 * dt)

/-- The pressure fragment shader (`pressureShader`):
`pressure = (L + R + B + T - divergence) * 0.25`. -/
noncomputable def pressureShader (uPressure uDivergence : Field ℝ) (t : ℝ × ℝ) : Field ℝ :=
  fun vUv =>
    let L := uPressure (vL vUv t)
    let R := uPressure (vR vUv t)
    let T := uPressure (vT vUv t)
    let B := uPressure (vB vUv t)
    let divergence := uDivergence vUv
    (L + R + B + T - divergence) * 0.25

/-- The gradient-subtraction fragment shader (`gradientSubtractShader`). -/
noncomputable def gradientSubtractShader (uPressure : Field ℝ)
    (uVelocity : Field (ℝ × ℝ)) (t : ℝ × ℝ) : Field (ℝ × ℝ) :=
  fun vUv =>
    let L := uPressure (vL vUv t)
    let R := uPressure (vR vUv t)
    let T := uPressure (vT vUv t)
    let B := uPressure (vB vUv t)
    let velocity := uVelocity vUv
    (velocity.1 - (R - L), velocity.2 - (T - B))

/-- The display fragment shader (`displayShader`):
rgb from the dye texture, alpha `max(c.r, max(c.g, c.b))`. -/
noncomputable def displayShader (uTexture : Field (ℝ × ℝ × ℝ)) : Field ((ℝ × ℝ × ℝ) × ℝ) :=
  fun vUv =>
    let c := uTexture vUv
    (c, max c.1 (max c.2.1 c.2.2))

/-- The clear fragment shader (`clearShader`): `value * texture2D(uTexture, vUv)`. -/
noncomputable def clearShader (uTexture : Field ℝ) (value : ℝ) : Field ℝ :=
  fun vUv => value * uTexture vUv

/-- The caller-supplied configuration object (field names follow the
`FLUID_CONFIG` keys consumed by `FluidSimulation`). -/
structure Config where
  SIM_RESOLUTION : ℚ
  DYE_RESOLUTION : ℚ
  DENSITY_DISSIPATION : ℝ
  VELOCITY_DISSIPATION : ℝ
  PRESSURE_ITERATIONS : ℕ
  CURL : ℝ
  SPLAT_RADIUS : ℝ
  SPLAT_FORCE : ℝ

/-- Modelled from the spec: the config invariants of spec sections 3 and 6
(dissipation factors in `(0,1]`, `curl ≥ 0`, positive splat radius and force,
positive base resolutions; the iteration count is a `ℕ`, hence `≥ 0`). -/
def ConfigInvariants (cfg : Config) : Prop :=
  0 < cfg.DENSITY_DISSIPATION ∧ cfg.DENSITY_DISSIPATION ≤ 1 ∧
  0 < cfg.VELOCITY_DISSIPATION ∧ cfg.VELOCITY_DISSIPATION ≤ 1 ∧
  0 ≤ cfg.CURL ∧ 0 < cfg.SPLAT_RADIUS ∧ 0 < cfg.SPLAT_FORCE ∧
  0 < cfg.SIM_RESOLUTION ∧ 0 < cfg.DYE_RESOLUTION

/-- The engine state: the fields owned by one `FluidSimulation` instance.
`programsOk` records whether all shader/program compilations at construction
time succeeded (the GL compile/link status of the programs built by
`createPrograms`); the source never consults this status. -/
structure FluidState where
  width : ℝ
  height : ℝ
  programsOk : Bool
  velocity : DoubleFBO (ℝ × ℝ)
  density : DoubleFBO (ℝ × ℝ × ℝ)
  pressure : DoubleFBO ℝ
  divergence : Field ℝ
  curl : Field ℝ
  lastTime : ℝ
  output : Field ((ℝ × ℝ × ℝ) × ℝ)

/-- `FluidSimulation.getResolution`: aspect-preserving grid planning.
`Math.round x` in JavaScript is `⌊x + 1/2⌋`, which is Mathlib `round`. -/
def getResolution (width height resolution : ℚ) : ℤ × ℤ :=
  let aspect0 := width / height
  let aspect := if aspect0 < 1 then 1 / aspect0 else aspect0
  let mn := round resolution
  let mx := round (resolution * aspect)
  if height < width then (mx, mn) else (mn, mx)

/-- Velocity-grid texel size pair, as passed to the `texelSize` uniform. -/
def velTexel (s : FluidState) : ℝ × ℝ := (s.velocity.texelSizeX, s.velocity.texelSizeY)

/-- Dye-grid texel size pair, as passed to the `texelSize` uniform for the
dye advection pass. -/
def dyeTexel (s : FluidState) : ℝ × ℝ := (s.density.texelSizeX, s.density.texelSizeY)

/-- `FluidSimulation.splat(x, y, dx, dy, r, g, b, radius)`: two splat-shader
passes.  The velocity pass targets the velocity field with
`point = (x, 1 - y)`, `color = (dx, -dy, 0)` and `radius / 100`, then swaps;
the dye pass reuses the same `aspectRatio`, `point` and `radius` uniforms with
`color = (r, g, b)`, then swaps.  The RG velocity texture keeps only the
first two components of the shader output. -/
noncomputable def FluidSimulation.splat (s : FluidState) (x y dx dy r g b radius : ℝ) :
    FluidState :=
  let aspect := s.width / s.height
  let point : ℝ × ℝ := (x, 1 - y)
  let rad := radius / 100
  let velTarget : Field (ℝ × ℝ × ℝ) :=
    fun uv => ((s.velocity.read uv).1, (s.velocity.read uv).2, 0)
  let velOut3 := splatShader velTarget aspect (dx, -dy, 0) point rad
  let velOut : Field (ℝ × ℝ) := fun uv => ((velOut3 uv).1, (velOut3 uv).2.1)
  let s1 := { s with velocity := s.velocity.commit velOut }
  let denOut := splatShader s1.density.read aspect (r, g, b) point rad
  { s1 with density := s1.density.commit denOut }

/-- One pressure-solve loop iteration of `update()` step 5: bind the read
buffer, blit the pressure shader into the write buffer, swap. -/
noncomputable def pressureStep (t : ℝ × ℝ) (div : Field ℝ) (P : DoubleFBO ℝ) : DoubleFBO ℝ :=
  P.commit (pressureShader P.read div t)

/-- The full pressure-solve loop of `update()` step 5:
`for (let i = 0; i < PRESSURE_ITERATIONS; i++) { ...; blit; swap; }`. -/
noncomputable def pressureSolve (n : ℕ) (t : ℝ × ℝ) (div : Field ℝ) (P : DoubleFBO ℝ) :
    DoubleFBO ℝ :=
  (pressureStep t div)^[n] P

/-- The body of `FluidSimulation.update()` after the dt computation: the nine
pipeline stages in source order. -/
noncomputable def FluidSimulation.step (cfg : Config) (dt : ℝ) (s0 : FluidState) : FluidState :=
  let s1 := { s0 with curl := curlShader s0.velocity.read (velTexel s0) }
  let s2 := { s1 with
    velocity := s1.velocity.commit
      (vorticityShader s1.velocity.read s1.curl cfg.CURL dt (velTexel s1)) }
  let s3 := { s2 with divergence := divergenceShader s2.velocity.read (velTexel s2) }
  let s4 := { s3 with pressure := s3.pressure.commit (clearShader s3.pressure.read 0.8) }
  let s5 := { s4 with
    pressure := pressureSolve cfg.PRESSURE_ITERATIONS (velTexel s4) s4.divergence s4.pressure }
  let s6 := { s5 with
    velocity := s5.velocity.commit
      (gradientSubtractShader s5.pressure.read s5.velocity.read (velTexel s5)) }
  let s7 := { s6 with
    velocity := s6.velocity.commit
      (advectionShader s6.velocity.read s6.velocity.read (velTexel s6) dt
        cfg.VELOCITY_DISSIPATION) }
  let s8 := { s7 with
    density := s7.density.commit
      (advectionShader s7.velocity.read s7.density.read (dyeTexel s7) dt
        cfg.DENSITY_DISSIPATION) }
  { s8 with output := displayShader s8.density.read }

/-- The dt computation at the top of `update()`:
`dt = (now - lastTime) / 1000; dt = Math.min(dt, 0.016666)`. -/
noncomputable def dtOf (lastTime now : ℝ) : ℝ :=
  min ((now - lastTime) / 1000) 0.016666

/-- `FluidSimulation.update()`: compute the clamped dt from the wall clock,
record `lastTime = now`, then run the nine pipeline stages once. -/
noncomputable def FluidSimulation.update (cfg : Config) (now : ℝ) (s : FluidState) : FluidState :=
  FluidSimulation.step cfg (dtOf s.lastTime now) { s with lastTime := now }

/-- Labels for the nine kinds of pipeline passes issued by `update()`. -/
inductive Stage where
  | curl
  | vorticity
  | divergence
  | pressureClear
  | pressureIter
  | gradientSubtract
  | advectVelocity
  | advectDye
  | display
deriving DecidableEq

/-- The effect of one pipeline pass on the engine state, stage by stage,
with the same shader wiring as the corresponding block of `update()`. -/
noncomputable def applyStage (cfg : Config) (dt : ℝ) : Stage → FluidState → FluidState
  | Stage.curl, s => { s with curl := curlShader s.velocity.read (velTexel s) }
  | Stage.vorticity, s => { s with
      velocity := s.velocity.commit
        (vorticityShader s.velocity.read s.curl cfg.CURL dt (velTexel s)) }
  | Stage.divergence, s => { s with divergence := divergenceShader s.velocity.read (velTexel s) }
  | Stage.pressureClear, s => { s with
      pressure := s.pressure.commit (clearShader s.pressure.read 0.8) }
  | Stage.pressureIter, s => { s with
      pressure := pressureStep (velTexel s) s.divergence s.pressure }
  | Stage.gradientSubtract, s => { s with
      velocity := s.velocity.commit
        (gradientSubtractShader s.pressure.read s.velocity.read (velTexel s)) }
  | Stage.advectVelocity, s => { s with
      velocity := s.velocity.commit
        (advectionShader s.velocity.read s.velocity.read (velTexel s) dt
          cfg.VELOCITY_DISSIPATION) }
  | Stage.advectDye, s => { s with
      density := s.density.commit
        (advectionShader s.velocity.read s.density.read (dyeTexel s) dt
          cfg.DENSITY_DISSIPATION) }
  | Stage.display, s => { s with output := displayShader s.density.read }

/-- The fixed pass sequence of one `update()` call: stages 1 to 4, the
pressure loop repeated `PRESSURE_ITERATIONS` times, then stages 6 to 9. -/
def stageList (cfg : Config) : List Stage :=
  [Stage.curl, Stage.vorticity, Stage.divergence, Stage.pressureClear]
    ++ List.replicate cfg.PRESSURE_ITERATIONS Stage.pressureIter
    ++ [Stage.gradientSubtract, Stage.advectVelocity, Stage.advectDye, Stage.display]

/-- Execute a list of pipeline passes in order. -/
noncomputable def runStages (cfg : Config) (dt : ℝ) (l : List Stage) (s : FluidState) :
    FluidState :=
  l.foldl (fun s st => applyStage cfg dt st s) s

/-- Modelled from the spec: the Jacobi relaxation formula of spec section
4.3.5, `pressure[cell] = (pressure[left] + pressure[right] + pressure[top] +
pressure[bottom] - divergence[cell]) / 4`. -/
noncomputable def jacobiIter (t : ℝ × ℝ) (div : Field ℝ) (p : Field ℝ) : Field ℝ :=
  fun uv => (p (vL uv t) + p (vR uv t) + p (vT uv t) + p (vB uv t) - div uv) / 4

/-- The aspect-ratio helper of `getResolution`: `width / height`, inverted
when below 1. -/
def jsAspect (width height : ℚ) : ℚ :=
  let a := width / height
  if a < 1 then 1 / a else a

/-- The browser/WebGL capabilities `initFluidSimulation` can observe:
whether a `webgl2` or `webgl` context is available, whether the two
floating-point texture extensions are available, and whether the GLSL
shaders compile/link successfully on this driver. -/
structure GLEnv where
  webgl2 : Bool
  webgl : Bool
  colorBufferFloat : Bool
  textureFloatLinear : Bool
  compileOk : Bool

/-- Which kind of rendering context `getContext` produced. -/
inductive GLContext where
  | webgl2
  | webgl1
deriving DecidableEq

/-- The hidden canvas element created by `initFluidSimulation`. -/
structure Canvas where
  width : ℚ
  height : ℚ
deriving DecidableEq

/-- The record `initFluidSimulation` returns on success:
`{ canvas: fluidCanvas, gl, sim: fluidSim }`. -/
structure InitResult where
  canvas : Canvas
  gl : GLContext
  sim : FluidState

/-- The `FluidSimulation` constructor: plans the two grid resolutions from
the canvas size, compiles the programs (recording, but not checking, their
compile status), and creates all FBOs zero-initialised (`createFBO` clears
each texture); `lastTime` starts at the construction-time clock value. -/
noncomputable def FluidSimulation.construct (compileOk : Bool) (width height : ℚ)
    (cfg : Config) (now : ℝ) : FluidState :=
  let simRes := getResolution width height cfg.SIM_RESOLUTION
  let dyeRes := getResolution width height cfg.DYE_RESOLUTION
  { width := (width : ℝ)
    height := (height : ℝ)
    programsOk := compileOk
    velocity := { read := fun _ => (0, 0), write := fun _ => (0, 0)
                  texelSizeX := 1 / (simRes.1 : ℝ), texelSizeY := 1 / (simRes.2 : ℝ) }
    density := { read := fun _ => (0, 0, 0), write := fun _ => (0, 0, 0)
                 texelSizeX := 1 / (dyeRes.1 : ℝ), texelSizeY := 1 / (dyeRes.2 : ℝ) }
    pressure := { read := fun _ => 0, write := fun _ => 0
                  texelSizeX := 1 / (simRes.1 : ℝ), texelSizeY := 1 / (simRes.2 : ℝ) }
    divergence := fun _ => 0
    curl := fun _ => 0
    lastTime := now
    output := fun _ => ((0, 0, 0), 0) }

/-- `initFluidSimulation(width, height, config)`: creates the hidden canvas,
tries `webgl2` then `webgl`, returns `null` when neither context is
available, requests the two float-texture extensions (their availability is
not checked), constructs the `FluidSimulation`, and returns
`{ canvas, gl, sim }`. -/
noncomputable def initFluidSimulation (width height : ℚ) (cfg : Config) (env : GLEnv)
    (now : ℝ) : Option InitResult :=
  let fluidCanvas : Canvas := { width := width, height := height }
  let gl : Option GLContext :=
    if env.webgl2 then some GLContext.webgl2
    else if env.webgl then some GLContext.webgl1
    else none
  match gl with
  | none => none
  | some g => some { canvas := fluidCanvas, gl := g
                     sim := FluidSimulation.construct env.compileOk width height cfg now }

/-- `injectSplat(fluidSim, x, y, dx, dy, color, radius, force)`: returns
immediately when `fluidSim` is null/undefined, otherwise forwards to
`fluidSim.splat` with the velocity delta scaled by `force`. -/
noncomputable def injectSplat (fluidSim : Option FluidState) (x y dx dy : ℝ)
    (color : ℝ × ℝ × ℝ) (radius force : ℝ) : Option FluidState :=
  match fluidSim with
  | none => none
  | some sim =>
      some (FluidSimulation.splat sim x y (dx * force) (dy * force)
        color.1 color.2.1 color.2.2 radius)

/-- One `drawImage(source, dx, dy, dWidth, dHeight)` call issued on the
target 2D drawing context. -/
structure DrawImageOp where
  source : Canvas
  dx : ℝ
  dy : ℝ
  dWidth : ℝ
  dHeight : ℝ

/-- `drawFluidToCanvas(fluidCanvas, drawingContext, width, height)`: the 2D
drawing context is modelled by the list of `drawImage` calls issued on it;
a null `fluidCanvas` returns without drawing. -/
def drawFluidToCanvas (fluidCanvas : Option Canvas) (drawOps : List DrawImageOp)
    (width height : ℝ) : List DrawImageOp :=
  match fluidCanvas with
  | none => drawOps
  | some c =>
      drawOps ++ [{ source := c, dx := 0, dy := 0, dWidth := width, dHeight := height }]

/-- The `FLUID_CONFIG` values used by the repository's interaction layers. -/
noncomputable def cfgStd : Config :=
  { SIM_RESOLUTION := 128
    DYE_RESOLUTION := 512
    DENSITY_DISSIPATION := 0.97
    VELOCITY_DISSIPATION := 0.98
    PRESSURE_ITERATIONS := 20
    CURL := 30
    SPLAT_RADIUS := 0.25
    SPLAT_FORCE := 6000 }

/-- A concrete engine state on a square canvas with all fields zero. -/
noncomputable def zeroState : FluidState :=
  { width := 1
    height := 1
    programsOk := true
    velocity := { read := fun _ => (0, 0), write := fun _ => (0, 0)
                  texelSizeX := 1 / 4, texelSizeY := 1 / 4 }
    density := { read := fun _ => (0, 0, 0), write := fun _ => (0, 0, 0)
                 texelSizeX := 1 / 4, texelSizeY := 1 / 4 }
    pressure := { read := fun _ => 0, write := fun _ => 0
                  texelSizeX := 1 / 4, texelSizeY := 1 / 4 }
    divergence := fun _ => 0
    curl := fun _ => 0
    lastTime := 0
    output := fun _ => ((0, 0, 0), 0) }

/-- `cfgStd` with the pressure loop disabled (`PRESSURE_ITERATIONS = 0` is a
legal configuration). -/
noncomputable def cfgIter0 : Config :=
  { cfgStd with PRESSURE_ITERATIONS := 0 }

/-- `cfgStd` with both dissipation factors at the boundary value 1, which the
config invariants permit. -/
noncomputable def cfgNoDecay : Config :=
  { cfgStd with DENSITY_DISSIPATION := 1, VELOCITY_DISSIPATION := 1 }

/-- `cfgStd` with density dissipation 1/2. -/
noncomputable def cfgHalf : Config :=
  { cfgStd with DENSITY_DISSIPATION := 1 / 2 }

/-- `cfgStd` with vorticity-confinement strength 1. -/
noncomputable def cfgCurlOne : Config :=
  { cfgStd with CURL := 1 }

/-- An engine whose shader programs failed to compile and whose pressure read
buffer holds the constant 1. -/
noncomputable def failedCompileState : FluidState :=
  { zeroState with
    programsOk := false
    pressure := { read := fun _ => 1, write := fun _ => 1
                  texelSizeX := 1 / 4, texelSizeY := 1 / 4 } }

/-- An engine state whose dye read buffer holds the constant colour (1,1,1). -/
noncomputable def dyeOneState : FluidState :=
  { zeroState with
    density := { read := fun _ => (1, 1, 1), write := fun _ => (0, 0, 0)
                 texelSizeX := 1 / 4, texelSizeY := 1 / 4 } }

/-- A curl scratch texture holding 2 at the top neighbour of the cell
(1/2, 1/2) (texel size 1/4), 1 at the cell itself and 0 elsewhere. -/
noncomputable def spikeCurlField : Field ℝ :=
  fun uv =>
    if uv = ((1 : ℝ) / 2, (3 : ℝ) / 4) then 2
    else if uv = ((1 : ℝ) / 2, (1 : ℝ) / 2) then 1
    else 0

/-- `zeroState` with `spikeCurlField` as the curl scratch texture. -/
noncomputable def spikeCurlState : FluidState :=
  { zeroState with curl := spikeCurlField }

/-- A browser environment with WebGL available but without floating-point
texture support, and with working shader compilation. -/
def envNoFloat : GLEnv :=
  { webgl2 := true, webgl := true, colorBufferFloat := false
    textureFloatLinear := false, compileOk := true }

/-- A velocity field bounded by 40 everywhere (see `velSpikes_bounded`):
an x-velocity spike of 40 at the cell (1/2, 1/2) and two y-velocity spikes,
40 at (13/20, 1/2) and 4 at (13/20, 3/4), zero elsewhere.  The spikes are
placed so that the backtraced sample point of the cell (1/2, 1/2) carries a
large vorticity-confinement force. -/
noncomputable def velSpikes : Field (ℝ × ℝ) :=
  fun p =>
    if p = ((1 : ℝ) / 2, (1 : ℝ) / 2) then (40, 0)
    else if p = ((13 : ℝ) / 20, (1 : ℝ) / 2) then (0, 40)
    else if p = ((13 : ℝ) / 20, (3 : ℝ) / 4) then (0, 4)
    else (0, 0)

/-- `zeroState` carrying the `velSpikes` velocity field. -/
noncomputable def velSpikeState : FluidState :=
  { zeroState with
    velocity := { read := velSpikes, write := fun _ => (0, 0)
                  texelSizeX := 1 / 4, texelSizeY := 1 / 4 } }

/-- `cfgStd` with vorticity-confinement strength 10000 and the pressure loop
disabled; both values are permitted by the config invariants (`curl` is only
required to be nonnegative and the iteration count only nonnegative), and
the dissipation factors stay strictly below 1. -/
noncomputable def cfgHighCurl : Config :=
  { cfgStd with CURL := 10000, PRESSURE_ITERATIONS := 0 }

/-- The curl texture computed by stage 1 of `update()` from `velSpikes`. -/
noncomputable def velSpikesCurl : Field ℝ := curlShader velSpikes (1 / 4, 1 / 4)

/-- The velocity field after the vorticity-confinement stage of one
`update()` on `velSpikeState` under `cfgHighCurl` with `dt = 1/100`. -/
noncomputable def velSpikesV2 : Field (ℝ × ℝ) :=
  vorticityShader velSpikes velSpikesCurl 10000 (1 / 100) (1 / 4, 1 / 4)

/-- The velocity field after gradient subtraction in the same step (the
pressure field is the cleared zero field and the loop runs zero times). -/
noncomputable def velSpikesV6 : Field (ℝ × ℝ) :=
  gradientSubtractShader (clearShader (fun _ => 0) 0.8) velSpikesV2 (1 / 4, 1 / 4)

/-- The velocity field after self-advection in the same step: the read
buffer of the velocity double FBO once `update()` returns. -/
noncomputable def velSpikesV7 : Field (ℝ × ℝ) :=
  advectionShader velSpikesV6 velSpikesV6 (1 / 4, 1 / 4) (1 / 100) 0.98

/-- `n` successive `update()` calls at the wall-clock instants `nows 0`,
`nows 1`, ..., with no `splat()` calls in between. -/
noncomputable def runUpdates (cfg : Config) (nows : ℕ → ℝ) (s : FluidState) : ℕ → FluidState
  | 0 => s
  | n + 1 => FluidSimulation.update cfg (nows n) (runUpdates cfg nows s n)

/-! ## Theorems -/

/-- C10: the module-level helpers tolerate failed initialization:
`injectSplat` with a null/undefined simulation returns without touching any
state (and otherwise forwards to `splat` with the force-scaled deltas);
`drawFluidToCanvas` with a null canvas issues no `drawImage` call (and
otherwise issues exactly one); `initFluidSimulation` returns null whenever
neither a `webgl2` nor a `webgl` context is available. -/
theorem c10_null_guards :
    (∀ (x y dx dy : ℝ) (color : ℝ × ℝ × ℝ) (radius force : ℝ),
      injectSplat none x y dx dy color radius force = none)
    ∧ (∀ (sim : FluidState) (x y dx dy : ℝ) (color : ℝ × ℝ × ℝ) (radius force : ℝ),
      injectSplat (some sim) x y dx dy color radius force
        = some (FluidSimulation.splat sim x y (dx * force) (dy * force)
            color.1 color.2.1 color.2.2 radius))
    ∧ (∀ (ops : List DrawImageOp) (w h : ℝ), drawFluidToCanvas none ops w h = ops)
    ∧ (∀ (c : Canvas) (ops : List DrawImageOp) (w h : ℝ),
      drawFluidToCanvas (some c) ops w h
        = ops ++ [{ source := c, dx := 0, dy := 0, dWidth := w, dHeight := h }])
    ∧ (∀ (w h : ℚ) (cfg : Config) (cb fl co : Bool) (now : ℝ),
      initFluidSimulation w h cfg
        { webgl2 := false, webgl := false, colorBufferFloat := cb
          textureFloatLinear := fl, compileOk := co } now = none) := by
  refine ⟨fun _ _ _ _ _ _ _ => rfl, fun _ _ _ _ _ _ _ _ => rfl, fun _ _ _ => rfl,
    fun _ _ _ _ => rfl, fun _ _ _ _ _ _ _ => rfl⟩

/-- C4 (counterexample): with a WebGL context available but both
floating-point texture extensions unavailable, `initFluidSimulation` still
returns a constructed engine, not a failure value — the claim that
construction fails whenever required floating-point texture support is
unavailable is false: `getExtension` is called but its result is never
checked. -/
theorem c4_counterexample :
    envNoFloat.colorBufferFloat = false ∧ envNoFloat.textureFloatLinear = false
      ∧ (initFluidSimulation 640 480 cfgStd envNoFloat 0).isSome = true := by
  exact ⟨rfl, rfl, rfl⟩

/-- C4 (amended): construction never throws (it is a total function into
`Option`) and returns the failure value `none` exactly when neither a
`webgl2` nor a `webgl` context can be created; in every other case it
returns a usable engine.  Floating-point texture support is requested but
never checked: the result does not depend on the two extension flags. -/
theorem c4_construction_amended (w h : ℚ) (cfg : Config) (env : GLEnv) (now : ℝ) :
    (initFluidSimulation w h cfg env now = none
      ↔ env.webgl2 = false ∧ env.webgl = false)
    ∧ (∀ cb fl : Bool,
      initFluidSimulation w h cfg
          { env with colorBufferFloat := cb, textureFloatLinear := fl } now
        = initFluidSimulation w h cfg env now) := by
  obtain ⟨g2, g1, cb0, fl0, co⟩ := env
  constructor
  · cases g2 <;> cases g1 <;> simp [initFluidSimulation]
  · intro cb fl
    cases g2 <;> cases g1 <;> rfl

/-- C3 (counterexample): an engine whose shader/program compilation failed is
still constructed (no construction failure, no disabled flag), and a
subsequent `update()` is not a no-op: it advances `lastTime` and runs the
pipeline (here the pressure-clear pass visibly rescales the pressure field
by 0.8).  The claim that `update()` is a no-op after compile failure is
false of the code, which never checks compile status. -/
theorem c3_counterexample :
    failedCompileState.programsOk = false
    ∧ (initFluidSimulation 640 480 cfgStd
        { webgl2 := true, webgl := true, colorBufferFloat := true
          textureFloatLinear := true, compileOk := false } 0).isSome = true
    ∧ (FluidSimulation.update cfgIter0 5 failedCompileState).lastTime = 5
    ∧ failedCompileState.lastTime = 0
    ∧ (FluidSimulation.update cfgIter0 5 failedCompileState).pressure.read (0, 0) = 0.8
    ∧ failedCompileState.pressure.read (0, 0) = 1
    ∧ FluidSimulation.update cfgIter0 5 failedCompileState ≠ failedCompileState := by
  refine ⟨rfl, rfl, rfl, rfl, ?_, rfl, ?_⟩
  · show (0.8 : ℝ) * 1 = 0.8
    norm_num
  · intro h
    have h5 : (FluidSimulation.update cfgIter0 5 failedCompileState).lastTime
        = failedCompileState.lastTime := congrArg FluidState.lastTime h
    have : (5 : ℝ) = 0 := h5
    norm_num at this

/-- C3 (amended): the engine neither fails construction nor marks itself
disabled on shader/program compile failure, and `update()` never consults the
compile status: construction succeeds whenever a context exists, regardless
of `compileOk`; the constructed engine records the compile status unchecked;
and `update()` commutes with an arbitrary change of the recorded compile
status — it unconditionally runs the full pipeline with a missing stage. -/
theorem c3_no_compile_guard (w h : ℚ) (cfg : Config) (env : GLEnv) (now : ℝ) :
    ((initFluidSimulation w h cfg env now).isSome = (env.webgl2 || env.webgl))
    ∧ ((initFluidSimulation w h cfg env now).map (fun r => r.sim.programsOk)
        = if env.webgl2 || env.webgl then some env.compileOk else none)
    ∧ (∀ (t : ℝ) (s : FluidState) (b : Bool),
      FluidSimulation.update cfg t { s with programsOk := b }
        = { FluidSimulation.update cfg t s with programsOk := b }) := by
  obtain ⟨g2, g1, cb0, fl0, co⟩ := env
  refine ⟨?_, ?_, ?_⟩
  · cases g2 <;> cases g1 <;> rfl
  · cases g2 <;> cases g1 <;> rfl
  · intro t s b
    rfl

/-- C2 (counterexample): for a wall-clock gap of 20 ms the code takes the
step `0.016666`, not `min(elapsed, 1/60)`: the cap constant in `update()` is
the literal `0.016666`, which is strictly below `1/60`. -/
theorem c2_counterexample : dtOf 0 20 ≠ min ((20 - 0) / 1000) (1 / 60 : ℝ) := by
  have h1 : dtOf 0 20 = 0.016666 := by
    rw [dtOf]
    rw [min_eq_right (by norm_num : (0.016666 : ℝ) ≤ (20 - (0 : ℝ)) / 1000)]
  have h2 : min ((20 - 0) / 1000) (1 / 60 : ℝ) = 1 / 60 := by
    rw [min_eq_right (by norm_num : (1 / 60 : ℝ) ≤ ((20 : ℝ) - 0) / 1000)]
  rw [h1, h2]
  norm_num

/-- C2 (amended): the effective step is `dt = min(elapsed seconds, 0.016666)`
(the cap is the literal `0.016666`, slightly below 1/60): `dt` never exceeds
the cap, is nonnegative whenever the clock is monotone, equals exactly the
cap whenever the wall-clock gap exceeds the cap, equals the raw elapsed time
otherwise, and is precisely the step `update()` hands to the pipeline. -/
theorem c2_dt_clamp (last now : ℝ) :
    dtOf last now ≤ 0.016666
    ∧ (last ≤ now → 0 ≤ dtOf last now)
    ∧ (0.016666 < (now - last) / 1000 → dtOf last now = 0.016666)
    ∧ ((now - last) / 1000 ≤ 0.016666 → dtOf last now = (now - last) / 1000)
    ∧ (∀ (cfg : Config) (s : FluidState), s.lastTime = last →
      FluidSimulation.update cfg now s
        = FluidSimulation.step cfg (dtOf last now) { s with lastTime := now }) := by
  refine ⟨min_le_right _ _, ?_, ?_, ?_, ?_⟩
  · intro h
    exact le_min (div_nonneg (sub_nonneg.mpr h) (by norm_num)) (by norm_num)
  · intro h
    exact min_eq_right h.le
  · intro h
    exact min_eq_left h
  · intro cfg s hs
    rw [FluidSimulation.update, hs]

/-- C2 witness: at concrete clock values, a 20 ms gap is clamped to exactly
the cap and an 8 ms gap yields a nonnegative step. -/
theorem c2_dt_clamp_witness : dtOf 0 20 = 0.016666 ∧ 0 ≤ dtOf 0 8 := by
  constructor
  · exact (c2_dt_clamp 0 20).2.2.1 (by norm_num)
  · exact (c2_dt_clamp 0 8).2.1 (by norm_num)

/-- `Math.round` is monotone. -/
theorem round_le_round_of_le {x y : ℚ} (hxy : x ≤ y) : round x ≤ round y := by
  rw [round_eq, round_eq]
  exact Int.floor_le_floor (by linarith)

/-- C8: the resolution planner returns exactly
`(round(res * ar), round res)` when the target is wider than tall and
`(round res, round(res * ar))` otherwise, where `ar` is `width/height`
inverted if below 1; `ar` equals `max(w,h)/min(w,h)`, and the returned grid
reproduces that ratio within rounding error:
`|maxDim - ar * minDim| ≤ (1 + ar)/2`. -/
theorem c8_resolution (w h res : ℚ) (hw : 0 < w) (hh : 0 < h) (hres : 0 < res) :
    (getResolution w h res
      = if h < w then (round (res * jsAspect w h), round res)
        else (round res, round (res * jsAspect w h)))
    ∧ jsAspect w h = max w h / min w h
    ∧ |((max (getResolution w h res).1 (getResolution w h res).2 : ℤ) : ℚ)
          - jsAspect w h * ((min (getResolution w h res).1 (getResolution w h res).2 : ℤ) : ℚ)|
        ≤ (1 + jsAspect w h) / 2 := by
  have hEq : getResolution w h res
      = if h < w then (round (res * jsAspect w h), round res)
        else (round res, round (res * jsAspect w h)) := rfl
  have ha1 : 1 ≤ jsAspect w h := by
    rw [jsAspect]
    by_cases hlt : w / h < 1
    · rw [if_pos hlt]
      exact one_le_one_div (div_pos hw hh) hlt.le
    · rw [if_neg hlt]
      exact not_lt.mp hlt
  have hmm : jsAspect w h = max w h / min w h := by
    rw [jsAspect]
    rcases lt_trichotomy w h with hlt | heq | hgt
    · rw [if_pos ((div_lt_one hh).mpr hlt), one_div_div,
        max_eq_right hlt.le, min_eq_left hlt.le]
    · subst heq
      simp [div_self hw.ne']
    · rw [if_neg (not_lt.mpr ((one_le_div hh).mpr hgt.le)),
        max_eq_left hgt.le, min_eq_right hgt.le]
  have hround : round res ≤ round (res * jsAspect w h) :=
    round_le_round_of_le (le_mul_of_one_le_right hres.le ha1)
  have hjs0 : 0 ≤ jsAspect w h := le_trans zero_le_one ha1
  have hb : |((round (res * jsAspect w h) : ℤ) : ℚ)
        - jsAspect w h * ((round res : ℤ) : ℚ)| ≤ (1 + jsAspect w h) / 2 := by
    have h1 : |((round (res * jsAspect w h) : ℤ) : ℚ) - res * jsAspect w h| ≤ 1 / 2 := by
      rw [abs_sub_comm]
      exact abs_sub_round _
    have h2 : |res - ((round res : ℤ) : ℚ)| ≤ 1 / 2 := abs_sub_round _
    calc |((round (res * jsAspect w h) : ℤ) : ℚ) - jsAspect w h * ((round res : ℤ) : ℚ)|
        = |(((round (res * jsAspect w h) : ℤ) : ℚ) - res * jsAspect w h)
            + jsAspect w h * (res - ((round res : ℤ) : ℚ))| := by
          exact congrArg abs (by ring)
      _ ≤ |((round (res * jsAspect w h) : ℤ) : ℚ) - res * jsAspect w h|
            + |jsAspect w h * (res - ((round res : ℤ) : ℚ))| := abs_add _ _
      _ = |((round (res * jsAspect w h) : ℤ) : ℚ) - res * jsAspect w h|
            + jsAspect w h * |res - ((round res : ℤ) : ℚ)| := by
          rw [abs_mul, abs_of_nonneg hjs0]
      _ ≤ 1 / 2 + jsAspect w h * (1 / 2) :=
          add_le_add h1 (mul_le_mul_of_nonneg_left h2 hjs0)
      _ = (1 + jsAspect w h) / 2 := by ring
  refine ⟨hEq, hmm, ?_⟩
  rw [hEq]
  by_cases hc : h < w
  · rw [if_pos hc]
    show |((max (round (res * jsAspect w h)) (round res) : ℤ) : ℚ)
        - jsAspect w h * ((min (round (res * jsAspect w h)) (round res) : ℤ) : ℚ)|
      ≤ (1 + jsAspect w h) / 2
    rw [max_eq_left hround, min_eq_right hround]
    exact hb
  · rw [if_neg hc]
    show |((max (round res) (round (res * jsAspect w h)) : ℤ) : ℚ)
        - jsAspect w h * ((min (round res) (round (res * jsAspect w h)) : ℤ) : ℚ)|
      ≤ (1 + jsAspect w h) / 2
    rw [max_eq_right hround, min_eq_left hround]
    exact hb

/-- C8 witness: at 1920×1080 with base resolution 128 the planner returns
the 16:9-preserving grid (228, 128). -/
theorem c8_resolution_witness :
    (0 : ℚ) < 1920 ∧ (0 : ℚ) < 1080 ∧ (0 : ℚ) < 128
      ∧ getResolution 1920 1080 128 = (228, 128) := by
  refine ⟨by norm_num, by norm_num, by norm_num, ?_⟩
  have hform := (c8_resolution 1920 1080 128 (by norm_num) (by norm_num) (by norm_num)).1
  rw [hform, if_pos (by norm_num : (1080 : ℚ) < 1920)]
  have hja : jsAspect 1920 1080 = 16 / 9 := by
    rw [jsAspect]
    norm_num
  rw [hja]
  have h1 : round ((128 : ℚ) * (16 / 9)) = 228 := by
    rw [round_eq]
    norm_num
  have h2 : round (128 : ℚ) = 128 := by
    rw [round_eq]
    norm_num
  rw [h1, h2]

/-- Folding a function over `replicate n a` iterates it `n` times. -/
theorem foldl_replicate {α β : Type} (g : β → α → β) (a : α) (n : ℕ) (b : β) :
    List.foldl g b (List.replicate n a) = (fun x => g x a)^[n] b := by
  induction n generalizing b with
  | zero => rfl
  | succ k ih =>
      rw [List.replicate_succ, List.foldl_cons, ih, ← Function.iterate_succ_apply]

/-- Iterating the pressure-loop stage only iterates `pressureStep` on the
pressure field; the texel size and divergence inputs it reads are unchanged
by the loop. -/
theorem applyStage_pressureIter_iterate (cfg : Config) (dt : ℝ) (n : ℕ) (s : FluidState) :
    (applyStage cfg dt Stage.pressureIter)^[n] s
      = { s with pressure := (pressureStep (velTexel s) s.divergence)^[n] s.pressure } := by
  induction n with
  | zero => rfl
  | succ k ih =>
      rw [Function.iterate_succ_apply', ih, Function.iterate_succ_apply']
      rfl

/-- C5: one `update()` call performs exactly the fixed pass sequence
curl, vorticity, divergence, pressure-clear, `PRESSURE_ITERATIONS`-many
pressure iterations, gradient subtraction, velocity self-advection, dye
advection, display — each non-loop stage exactly once, in that order, and
`update()` is exactly one such sweep with the clamped dt (no multi-step
catch-up). -/
theorem c5_pipeline_order (cfg : Config) (dt now : ℝ) (s : FluidState) :
    FluidSimulation.step cfg dt s = runStages cfg dt (stageList cfg) s
    ∧ FluidSimulation.update cfg now s
        = FluidSimulation.step cfg (dtOf s.lastTime now) { s with lastTime := now }
    ∧ (stageList cfg).count Stage.curl = 1
    ∧ (stageList cfg).count Stage.vorticity = 1
    ∧ (stageList cfg).count Stage.divergence = 1
    ∧ (stageList cfg).count Stage.pressureClear = 1
    ∧ (stageList cfg).count Stage.pressureIter = cfg.PRESSURE_ITERATIONS
    ∧ (stageList cfg).count Stage.gradientSubtract = 1
    ∧ (stageList cfg).count Stage.advectVelocity = 1
    ∧ (stageList cfg).count Stage.advectDye = 1
    ∧ (stageList cfg).count Stage.display = 1 := by
  refine ⟨?_, rfl, ?_, ?_, ?_, ?_, ?_, ?_, ?_, ?_, ?_⟩
  · rw [runStages, stageList]
    rw [List.foldl_append, List.foldl_append]
    rw [show List.foldl (fun s st => applyStage cfg dt st s) s
        [Stage.curl, Stage.vorticity, Stage.divergence, Stage.pressureClear]
      = applyStage cfg dt Stage.pressureClear (applyStage cfg dt Stage.divergence
          (applyStage cfg dt Stage.vorticity (applyStage cfg dt Stage.curl s))) from rfl]
    rw [foldl_replicate, applyStage_pressureIter_iterate]
    rfl
  all_goals
    simp [stageList, List.count_append, List.count_cons, List.count_replicate,
      List.count_nil]

/-- One pass of the pressure shader computes the spec's Jacobi relaxation
formula. -/
theorem pressureShader_eq_jacobiIter (p div : Field ℝ) (t : ℝ × ℝ) :
    pressureShader p div t = jacobiIter t div p := by
  funext uv
  show (p (vL uv t) + p (vR uv t) + p (vB uv t) + p (vT uv t) - div uv) * 0.25
    = (p (vL uv t) + p (vR uv t) + p (vT uv t) + p (vB uv t) - div uv) / 4
  ring

/-- C6: the pressure-solve stage performs exactly `n` Jacobi iterations on
the read buffer (`n = 0` performs none and leaves the double buffer
untouched); after each iteration the buffers are swapped, so the read buffer
holds the `n`-th Jacobi iterate and the write buffer holds the previous one;
and each iteration computes
`(pressure[left] + pressure[right] + pressure[top] + pressure[bottom] - divergence[cell]) / 4`. -/
theorem c6_pressure_solve (n : ℕ) (t : ℝ × ℝ) (div : Field ℝ) (P : DoubleFBO ℝ) :
    ((pressureSolve n t div P).read = (jacobiIter t div)^[n] P.read)
    ∧ pressureSolve 0 t div P = P
    ∧ (∀ m : ℕ, (pressureSolve (m + 1) t div P).write = (jacobiIter t div)^[m] P.read)
    ∧ (∀ (p : Field ℝ) (uv : ℝ × ℝ), jacobiIter t div p uv
        = (p (uv.1 - t.1, uv.2) + p (uv.1 + t.1, uv.2)
            + p (uv.1, uv.2 + t.2) + p (uv.1, uv.2 - t.2) - div uv) / 4) := by
  have hread : ∀ (k : ℕ) (Q : DoubleFBO ℝ),
      (pressureSolve k t div Q).read = (jacobiIter t div)^[k] Q.read := by
    intro k
    induction k with
    | zero => intro Q; rfl
    | succ m ih =>
        intro Q
        rw [pressureSolve, Function.iterate_succ_apply, Function.iterate_succ_apply]
        rw [show (pressureStep t div)^[m] (pressureStep t div Q)
          = pressureSolve m t div (pressureStep t div Q) from rfl]
        rw [ih]
        rw [show (pressureStep t div Q).read = pressureShader Q.read div t from rfl]
        rw [pressureShader_eq_jacobiIter]
  refine ⟨hread n P, rfl, ?_, fun p uv => rfl⟩
  intro m
  rw [pressureSolve, Function.iterate_succ_apply']
  rw [show (pressureStep t div ((pressureStep t div)^[m] P)).write
    = ((pressureStep t div)^[m] P).read from rfl]
  exact hread m P

/-- C7 (amended): the vorticity-confinement stage writes, for every cell,
`velocity + force * dt` and swaps the velocity buffers, where
`force = 0.5 * (|curl(top)| - |curl(bottom)|, |curl(right)| - |curl(left)|)`
is divided by `(length(force) + 0.0001)` — an epsilon-regularised
normalisation, not an exact normalisation to unit length — then scaled by
`config.curl * curl(cell)` with its y component negated. -/
theorem c7_vorticity_stage (cfg : Config) (dt : ℝ) (s : FluidState) (uv : ℝ × ℝ) :
    ((applyStage cfg dt Stage.vorticity s).velocity.read uv
      = (let t := velTexel s
         let L := s.curl (vL uv t)
         let R := s.curl (vR uv t)
         let T := s.curl (vT uv t)
         let B := s.curl (vB uv t)
         let C := s.curl uv
         let f : ℝ × ℝ := (0.5 * (|T| - |B|), 0.5 * (|R| - |L|))
         let len := glLength f + 0.0001
         ((s.velocity.read uv).1 + cfg.CURL * C * (f.1 / len) * dt,
          (s.velocity.read uv).2 + cfg.CURL * C * (f.2 / len) * (-1) * dt)))
    ∧ (applyStage cfg dt Stage.vorticity s).velocity.write = s.velocity.read := by
  exact ⟨rfl, rfl⟩

/-- C7 (counterexample): with curl strength 1, `dt = 1`, zero velocity and a
curl texture whose samples give `force = (1, 0)` at the cell (1/2, 1/2), the
code writes x-velocity `1 / 1.0001 = 10000/10001`, while the claimed exact
normalisation to unit length would give `1`; the two differ, so the claim
as stated is false — the code divides by `length(force) + 0.0001`. -/
theorem c7_counterexample :
    ((applyStage cfgCurlOne 1 Stage.vorticity spikeCurlState).velocity.read
        (1 / 2, 1 / 2)).1 = 10000 / 10001
    ∧ (0 : ℝ) + cfgCurlOne.CURL * spikeCurlField (1 / 2, 1 / 2)
        * ((0.5 * (|spikeCurlField (1 / 2, 3 / 4)| - |spikeCurlField (1 / 2, 1 / 4)|))
            / glLength
                (0.5 * (|spikeCurlField (1 / 2, 3 / 4)| - |spikeCurlField (1 / 2, 1 / 4)|),
                 0.5 * (|spikeCurlField (3 / 4, 1 / 2)| - |spikeCurlField (1 / 4, 1 / 2)|)))
        * 1 = 1
    ∧ (10000 : ℝ) / 10001 ≠ 1 := by
  have hT : spikeCurlField ((1 : ℝ) / 2, (3 : ℝ) / 4) = 2 := by
    norm_num [spikeCurlField]
  have hC : spikeCurlField ((1 : ℝ) / 2, (1 : ℝ) / 2) = 1 := by
    norm_num [spikeCurlField, Prod.ext_iff]
  have hB : spikeCurlField ((1 : ℝ) / 2, (1 : ℝ) / 4) = 0 := by
    norm_num [spikeCurlField, Prod.ext_iff]
  have hL : spikeCurlField ((1 : ℝ) / 4, (1 : ℝ) / 2) = 0 := by
    norm_num [spikeCurlField, Prod.ext_iff]
  have hR : spikeCurlField ((3 : ℝ) / 4, (1 : ℝ) / 2) = 0 := by
    norm_num [spikeCurlField, Prod.ext_iff]
  have hlen : glLength (1, 0) = 1 := by
    rw [glLength]
    norm_num
  refine ⟨?_, ?_, by norm_num⟩
  · show (vorticityShader spikeCurlState.velocity.read spikeCurlState.curl
        cfgCurlOne.CURL 1 (velTexel spikeCurlState) (1 / 2, 1 / 2)).1 = 10000 / 10001
    rw [vorticityShader]
    show (spikeCurlState.velocity.read (1 / 2, 1 / 2)).1
        + cfgCurlOne.CURL * spikeCurlState.curl (1 / 2, 1 / 2)
          * ((0.5 * (|spikeCurlState.curl (vT (1 / 2, 1 / 2) (velTexel spikeCurlState))|
                - |spikeCurlState.curl (vB (1 / 2, 1 / 2) (velTexel spikeCurlState))|))
            / (glLength
                (0.5 * (|spikeCurlState.curl (vT (1 / 2, 1 / 2) (velTexel spikeCurlState))|
                  - |spikeCurlState.curl (vB (1 / 2, 1 / 2) (velTexel spikeCurlState))|),
                 0.5 * (|spikeCurlState.curl (vR (1 / 2, 1 / 2) (velTexel spikeCurlState))|
                  - |spikeCurlState.curl (vL (1 / 2, 1 / 2) (velTexel spikeCurlState))|))
              + 0.0001)) * 1 = 10000 / 10001
    have ht : velTexel spikeCurlState = (1 / 4, 1 / 4) := rfl
    rw [ht]
    have h1 : vT ((1 : ℝ) / 2, (1 : ℝ) / 2) (1 / 4, 1 / 4) = ((1 : ℝ) / 2, (3 : ℝ) / 4) := by
      rw [vT]
      norm_num
    have h2 : vB ((1 : ℝ) / 2, (1 : ℝ) / 2) (1 / 4, 1 / 4) = ((1 : ℝ) / 2, (1 : ℝ) / 4) := by
      rw [vB]
      norm_num
    have h3 : vR ((1 : ℝ) / 2, (1 : ℝ) / 2) (1 / 4, 1 / 4) = ((3 : ℝ) / 4, (1 : ℝ) / 2) := by
      rw [vR]
      norm_num
    have h4 : vL ((1 : ℝ) / 2, (1 : ℝ) / 2) (1 / 4, 1 / 4) = ((1 : ℝ) / 4, (1 : ℝ) / 2) := by
      rw [vL]
      norm_num
    rw [h1, h2, h3, h4]
    show (0 : ℝ) + cfgCurlOne.CURL * spikeCurlField (1 / 2, 1 / 2)
        * ((0.5 * (|spikeCurlField (1 / 2, 3 / 4)| - |spikeCurlField (1 / 2, 1 / 4)|))
          / (glLength
              (0.5 * (|spikeCurlField (1 / 2, 3 / 4)| - |spikeCurlField (1 / 2, 1 / 4)|),
               0.5 * (|spikeCurlField (3 / 4, 1 / 2)| - |spikeCurlField (1 / 4, 1 / 2)|))
            + 0.0001)) * 1 = 10000 / 10001
    rw [hT, hB, hR, hL, hC]
    have hCURL : cfgCurlOne.CURL = 1 := rfl
    rw [hCURL]
    rw [show (0.5 * (|(2 : ℝ)| - |(0 : ℝ)|), 0.5 * (|(0 : ℝ)| - |(0 : ℝ)|)) = ((1 : ℝ), (0 : ℝ))
      from by norm_num]
    rw [hlen]
    norm_num
  · rw [hT, hB, hR, hL, hC]
    have hCURL : cfgCurlOne.CURL = 1 := rfl
    rw [hCURL]
    rw [show (0.5 * (|(2 : ℝ)| - |(0 : ℝ)|), 0.5 * (|(0 : ℝ)| - |(0 : ℝ)|)) = ((1 : ℝ), (0 : ℝ))
      from by norm_num]
    rw [hlen]
    norm_num

/-- C1 (counterexample): splatting `(dx, dy) = (0, 1)` with `radius = 100`
into a zero velocity field on a square canvas and reading the velocity at
(1/2, 1/2) (splat center (0, 1/2)) yields `-exp(-1/4)`: the code adds the
blob `exp(-|p|²/(radius/100)) * (dx, -dy)`, whereas the claimed formula
`exp(-|p|²/radius) * (dx, dy)` predicts `exp(-1/400)`; the two values
differ, so the claim as stated is false on both the sign of the y-delta and
the radius scaling. -/
theorem c1_counterexample :
    ((FluidSimulation.splat zeroState 0 (1 / 2) 0 1 0 0 0 100).velocity.read
        (1 / 2, 1 / 2)).2 = -Real.exp (-(1 / 4))
    ∧ Real.exp (-((1 / 2 - 0) * (1 / 2 - 0)
          + (1 / 2 - (1 - 1 / 2)) * (1 / 2 - (1 - 1 / 2))) / 100) * 1
        = Real.exp (-(1 / 400))
    ∧ -Real.exp (-(1 / 4 : ℝ)) ≠ Real.exp (-(1 / 400 : ℝ)) := by
  refine ⟨?_, ?_, ?_⟩
  · show (0 : ℝ) + Real.exp (-(((1 / 2 - 0) * (zeroState.width / zeroState.height))
          * ((1 / 2 - 0) * (zeroState.width / zeroState.height))
          + (1 / 2 - (1 - 1 / 2)) * (1 / 2 - (1 - 1 / 2))) / (100 / 100)) * (-1)
      = -Real.exp (-(1 / 4))
    have hwh : zeroState.width / zeroState.height = 1 := by
      show (1 : ℝ) / 1 = 1
      norm_num
    rw [hwh]
    rw [show (-(((1 / 2 - 0) * 1) * ((1 / 2 - 0) * 1)
        + (1 / 2 - (1 - 1 / 2)) * (1 / 2 - (1 - 1 / 2))) / (100 / 100) : ℝ)
      = -(1 / 4) from by norm_num]
    ring
  · rw [show (-((1 / 2 - 0) * (1 / 2 - 0)
        + (1 / 2 - (1 - 1 / 2)) * (1 / 2 - (1 - 1 / 2))) / 100 : ℝ)
      = -(1 / 400) from by norm_num]
    ring
  · have h1 : (0 : ℝ) < Real.exp (-(1 / 400)) := Real.exp_pos _
    have h2 : (0 : ℝ) < Real.exp (-(1 / 4)) := Real.exp_pos _
    intro heq
    linarith

/-- C1 (amended): `splat(x, y, dx, dy, r, g, b, radius)` adds the
Gaussian-falloff blob `exp(-|p|²/(radius/100)) * (dx, -dy)` to the velocity
field and `exp(-|p|²/(radius/100)) * (r, g, b)` to the dye field, both
centered at `(x, 1-y)` with `p` the offset from the center corrected for
aspect ratio; the writes are purely additive (a repeated splat at the same
point accumulates), and each of the two passes is immediately followed by a
swap of its field (the new write buffer is the previous read buffer). -/
theorem c1_splat (s : FluidState) (x y dx dy r g b radius : ℝ) (uv : ℝ × ℝ) :
    ((FluidSimulation.splat s x y dx dy r g b radius).velocity.read uv
      = (let gauss := Real.exp (-(((uv.1 - x) * (s.width / s.height))
            * ((uv.1 - x) * (s.width / s.height))
            + (uv.2 - (1 - y)) * (uv.2 - (1 - y))) / (radius / 100))
         ((s.velocity.read uv).1 + gauss * dx, (s.velocity.read uv).2 + gauss * (-dy))))
    ∧ ((FluidSimulation.splat s x y dx dy r g b radius).density.read uv
      = (let gauss := Real.exp (-(((uv.1 - x) * (s.width / s.height))
            * ((uv.1 - x) * (s.width / s.height))
            + (uv.2 - (1 - y)) * (uv.2 - (1 - y))) / (radius / 100))
         ((s.density.read uv).1 + gauss * r,
          (s.density.read uv).2.1 + gauss * g,
          (s.density.read uv).2.2 + gauss * b)))
    ∧ (FluidSimulation.splat s x y dx dy r g b radius).velocity.write uv
        = s.velocity.read uv
    ∧ (FluidSimulation.splat s x y dx dy r g b radius).density.write uv
        = s.density.read uv
    ∧ ((FluidSimulation.splat (FluidSimulation.splat s x y dx dy r g b radius)
          x y dx dy r g b radius).velocity.read uv).1
      = (let gauss := Real.exp (-(((uv.1 - x) * (s.width / s.height))
            * ((uv.1 - x) * (s.width / s.height))
            + (uv.2 - (1 - y)) * (uv.2 - (1 - y))) / (radius / 100))
         (s.velocity.read uv).1 + gauss * dx + gauss * dx)
    ∧ ((FluidSimulation.splat (FluidSimulation.splat s x y dx dy r g b radius)
          x y dx dy r g b radius).density.read uv).1
      = (let gauss := Real.exp (-(((uv.1 - x) * (s.width / s.height))
            * ((uv.1 - x) * (s.width / s.height))
            + (uv.2 - (1 - y)) * (uv.2 - (1 - y))) / (radius / 100))
         (s.density.read uv).1 + gauss * r + gauss * r) := by
  exact ⟨rfl, rfl, rfl, rfl, rfl, rfl⟩

/-- The curl of a zero velocity field is zero. -/
theorem curlShader_zero (t : ℝ × ℝ) :
    curlShader (fun _ => ((0 : ℝ), (0 : ℝ))) t = fun _ => 0 := by
  funext uv
  show (0.5 : ℝ) * (0 - 0 - 0 + 0) = 0
  norm_num

/-- Vorticity confinement leaves a zero velocity field at zero when the curl
texture is identically zero (the confinement force vanishes because it is
scaled by the cell's curl). -/
theorem vorticityShader_zero (curl dt : ℝ) (t : ℝ × ℝ) :
    vorticityShader (fun _ => ((0 : ℝ), (0 : ℝ))) (fun _ => (0 : ℝ)) curl dt t
      = fun _ => (0, 0) := by
  funext uv
  simp [vorticityShader]

/-- The divergence of a zero velocity field is zero. -/
theorem divergenceShader_zero (t : ℝ × ℝ) :
    divergenceShader (fun _ => ((0 : ℝ), (0 : ℝ))) t = fun _ => 0 := by
  funext uv
  show (0.5 : ℝ) * (0 - 0 + 0 - 0) = 0
  norm_num

/-- The pressure-clear pass maps a zero pressure field to zero. -/
theorem clearShader_zero (value : ℝ) :
    clearShader (fun _ => (0 : ℝ)) value = fun _ => 0 := by
  funext uv
  show value * 0 = 0
  exact mul_zero value

/-- Jacobi iterations with zero divergence preserve a zero pressure read
buffer. -/
theorem pressureStep_iterate_zero (n : ℕ) (t : ℝ × ℝ) (div : Field ℝ)
    (hdiv : div = fun _ => 0) :
    ∀ P : DoubleFBO ℝ, P.read = (fun _ => 0) →
      ((pressureStep t div)^[n] P).read = fun _ => 0 := by
  induction n with
  | zero =>
      intro P hP
      exact hP
  | succ m ih =>
      intro P hP
      rw [Function.iterate_succ_apply]
      refine ih _ ?_
      show pressureShader P.read div t = fun _ => 0
      rw [hP, hdiv]
      funext uv
      show ((0 : ℝ) + 0 + 0 + 0 - 0) * 0.25 = 0
      norm_num

/-- The pressure solve with zero divergence preserves a zero pressure read
buffer. -/
theorem pressureSolve_read_zero (n : ℕ) (t : ℝ × ℝ) (P : DoubleFBO ℝ)
    (hP : P.read = fun _ => 0) :
    (pressureSolve n t (fun _ => 0) P).read = fun _ => 0 :=
  pressureStep_iterate_zero n t _ rfl P hP

/-- Gradient subtraction with zero pressure leaves a zero velocity at zero. -/
theorem gradientSubtractShader_zero (t : ℝ × ℝ) :
    gradientSubtractShader (fun _ => (0 : ℝ)) (fun _ => ((0 : ℝ), (0 : ℝ))) t
      = fun _ => (0, 0) := by
  funext uv
  show ((0 : ℝ) - ((0 : ℝ) - 0), (0 : ℝ) - ((0 : ℝ) - 0)) = ((0 : ℝ), (0 : ℝ))
  norm_num

/-- Advection along a zero velocity field backtraces to the same cell:
the pass reduces to a pointwise rescale of the source by `dissipation`. -/
theorem advectionShader_zero_velocity {α : Type} [SMul ℝ α] (src : Field α)
    (t : ℝ × ℝ) (dt d : ℝ) :
    advectionShader (fun _ => ((0 : ℝ), (0 : ℝ))) src t dt d
      = fun uv => d • src uv := by
  funext uv
  show d • src (uv.1 - dt * 0 * t.1, uv.2 - dt * 0 * t.2) = d • src uv
  norm_num

/-- Scaling the zero 2-vector gives the zero 2-vector. -/
theorem smul_zero_pair (d : ℝ) : d • ((0 : ℝ), (0 : ℝ)) = ((0 : ℝ), (0 : ℝ)) := by
  rw [Prod.smul_mk]
  norm_num

/-- Self-advection of a zero velocity field yields a zero field. -/
theorem advectionShader_zero_zero (t : ℝ × ℝ) (dt d : ℝ) :
    advectionShader (fun _ => ((0 : ℝ), (0 : ℝ))) (fun _ => ((0 : ℝ), (0 : ℝ))) t dt d
      = fun _ => (0, 0) := by
  rw [advectionShader_zero_velocity]
  funext uv
  show d • ((0 : ℝ), (0 : ℝ)) = ((0 : ℝ), (0 : ℝ))
  rw [Prod.smul_mk]
  norm_num

/-- One pipeline step from a state with zero velocity and zero pressure:
velocity and pressure stay zero, the dye field is rescaled pointwise by the
density dissipation factor, and `lastTime` and the compile status are
untouched. -/
theorem step_zero_velocity (cfg : Config) (dt : ℝ) (s : FluidState)
    (hv : s.velocity.read = fun _ => (0, 0)) (hp : s.pressure.read = fun _ => 0) :
    ((FluidSimulation.step cfg dt s).velocity.read = fun _ => (0, 0))
    ∧ ((FluidSimulation.step cfg dt s).pressure.read = fun _ => 0)
    ∧ ((FluidSimulation.step cfg dt s).density.read
        = fun uv => cfg.DENSITY_DISSIPATION • s.density.read uv)
    ∧ (FluidSimulation.step cfg dt s).lastTime = s.lastTime := by
  refine ⟨?_, ?_, ?_, rfl⟩
  · dsimp only [FluidSimulation.step, DoubleFBO.commit, velTexel, dyeTexel]
    rw [hv, hp]
    simp only [curlShader_zero, vorticityShader_zero, divergenceShader_zero, clearShader_zero,
      pressureSolve_read_zero, gradientSubtractShader_zero, advectionShader_zero_zero]
  · dsimp only [FluidSimulation.step, DoubleFBO.commit, velTexel, dyeTexel]
    rw [hv, hp]
    simp only [curlShader_zero, vorticityShader_zero, divergenceShader_zero, clearShader_zero,
      pressureSolve_read_zero]
  · dsimp only [FluidSimulation.step, DoubleFBO.commit, velTexel, dyeTexel]
    rw [hv, hp]
    simp only [curlShader_zero, vorticityShader_zero, divergenceShader_zero, clearShader_zero,
      pressureSolve_read_zero, gradientSubtractShader_zero, advectionShader_zero_velocity,
      smul_zero_pair, advectionShader_zero_zero]

/-- With no splats, zero velocity and zero pressure, every further `update()`
keeps velocity and pressure at zero and multiplies the dye field by the
density dissipation factor once per call. -/
theorem runUpdates_zero_velocity (cfg : Config) (nows : ℕ → ℝ) (s : FluidState)
    (hv : s.velocity.read = fun _ => (0, 0)) (hp : s.pressure.read = fun _ => 0) :
    ∀ n, ((runUpdates cfg nows s n).velocity.read = fun _ => (0, 0))
      ∧ ((runUpdates cfg nows s n).pressure.read = fun _ => 0)
      ∧ ((runUpdates cfg nows s n).density.read
          = fun uv => cfg.DENSITY_DISSIPATION ^ n • s.density.read uv) := by
  intro n
  induction n with
  | zero =>
      refine ⟨hv, hp, ?_⟩
      funext uv
      rw [pow_zero, one_smul]
      rfl
  | succ m ih =>
      obtain ⟨ihv, ihp, ihd⟩ := ih
      have hstep := step_zero_velocity cfg
        (dtOf (runUpdates cfg nows s m).lastTime (nows m))
        { runUpdates cfg nows s m with lastTime := nows m } ihv ihp
      refine ⟨hstep.1, hstep.2.1, ?_⟩
      funext uv
      have h1 : (runUpdates cfg nows s (m + 1)).density.read uv
          = cfg.DENSITY_DISSIPATION • (runUpdates cfg nows s m).density.read uv :=
        congrFun hstep.2.2.1 uv
      have h2 : (runUpdates cfg nows s m).density.read uv
          = cfg.DENSITY_DISSIPATION ^ m • s.density.read uv := congrFun ihd uv
      rw [h1, h2, smul_smul, ← pow_succ']

/-- Evaluating `velSpikes` away from its three spikes gives the zero
vector. -/
theorem velSpikes_zero (q : ℝ × ℝ) (h1 : q ≠ ((1 : ℝ) / 2, (1 : ℝ) / 2))
    (h2 : q ≠ ((13 : ℝ) / 20, (1 : ℝ) / 2)) (h3 : q ≠ ((13 : ℝ) / 20, (3 : ℝ) / 4)) :
    velSpikes q = (0, 0) := by
  simp only [velSpikes]
  rw [if_neg h1, if_neg h2, if_neg h3]

/-- Evaluating `velSpikes` at its first spike. -/
theorem velSpikes_eq_one (q : ℝ × ℝ) (h : q = ((1 : ℝ) / 2, (1 : ℝ) / 2)) :
    velSpikes q = (40, 0) := by
  subst h
  simp only [velSpikes]
  simp

/-- Evaluating `velSpikes` at its second spike. -/
theorem velSpikes_eq_two (q : ℝ × ℝ) (h : q = ((13 : ℝ) / 20, (1 : ℝ) / 2)) :
    velSpikes q = (0, 40) := by
  subst h
  simp only [velSpikes]
  rw [if_neg (by norm_num [Prod.ext_iff])]
  simp

/-- Evaluating `velSpikes` at its third spike. -/
theorem velSpikes_eq_three (q : ℝ × ℝ) (h : q = ((13 : ℝ) / 20, (3 : ℝ) / 4)) :
    velSpikes q = (0, 4) := by
  subst h
  simp only [velSpikes]
  rw [if_neg (by norm_num [Prod.ext_iff]), if_neg (by norm_num [Prod.ext_iff])]
  simp

/-- The `velSpikes` velocity field is bounded by 40 in sup norm at every
point of the grid: 40 is its global magnitude bound. -/
theorem velSpikes_bounded (q : ℝ × ℝ) : ‖velSpikes q‖ ≤ 40 := by
  simp only [velSpikes]
  split_ifs <;> norm_num [Prod.norm_def, Real.norm_eq_abs]

/-- C9 (counterexample): the claim fails in two independent ways, at a
concrete input each.
First, with both dissipation factors at the boundary value 1 — a
configuration the invariants permit — and a state with zero velocity, zero
pressure and constant dye (1,1,1), repeated `update()` calls leave the dye
magnitude constant at 1 forever: it does not tend to zero (advection
multiplies by the dissipation factor, which may be exactly 1).
Second, even with both dissipation factors strictly below 1, velocity
magnitude is not driven monotonically toward zero from every engine state:
under `cfgHighCurl` (invariant-satisfying, dissipations 0.97 and 0.98,
`curl = 10000`, zero pressure iterations) and the `velSpikes` velocity field
— bounded by 40 everywhere, see `velSpikes_bounded` — a single `update()`
raises the velocity at the cell (1/2, 1/2) from magnitude 40 (the global
bound of the initial field) to `19600000/10001 ≈ 1960`: vorticity
confinement injects energy proportional to `config.curl`, so no
dissipation-rate decay bound holds for states with nonzero velocity. -/
theorem c9_counterexample :
    (ConfigInvariants cfgNoDecay
      ∧ ¬ Filter.Tendsto
          (fun n => ‖(runUpdates cfgNoDecay (fun _ => 0) dyeOneState n).density.read
              ((1 : ℝ) / 2, (1 : ℝ) / 2)‖)
          Filter.atTop (nhds 0))
    ∧ (ConfigInvariants cfgHighCurl
      ∧ cfgHighCurl.DENSITY_DISSIPATION < 1
      ∧ cfgHighCurl.VELOCITY_DISSIPATION < 1
      ∧ velSpikeState.velocity.read ((1 : ℝ) / 2, (1 : ℝ) / 2) = (40, 0)
      ∧ (FluidSimulation.update cfgHighCurl 10 velSpikeState).velocity.read
          ((1 : ℝ) / 2, (1 : ℝ) / 2) = (19600000 / 10001, 0)
      ∧ ‖velSpikeState.velocity.read ((1 : ℝ) / 2, (1 : ℝ) / 2)‖
          < ‖(FluidSimulation.update cfgHighCurl 10 velSpikeState).velocity.read
              ((1 : ℝ) / 2, (1 : ℝ) / 2)‖) := by
  have hC0 : velSpikesCurl ((1 : ℝ) / 2, (1 : ℝ) / 2) = 0 := by
    show 0.5 * ((velSpikes ((1 : ℝ) / 2 + 1 / 4, (1 : ℝ) / 2)).2
        - (velSpikes ((1 : ℝ) / 2 - 1 / 4, (1 : ℝ) / 2)).2
        - (velSpikes ((1 : ℝ) / 2, (1 : ℝ) / 2 + 1 / 4)).1
        + (velSpikes ((1 : ℝ) / 2, (1 : ℝ) / 2 - 1 / 4)).1) = 0
    rw [velSpikes_zero ((1 : ℝ) / 2 + 1 / 4, (1 : ℝ) / 2) (by norm_num [Prod.ext_iff])
        (by norm_num [Prod.ext_iff]) (by norm_num [Prod.ext_iff]),
      velSpikes_zero ((1 : ℝ) / 2 - 1 / 4, (1 : ℝ) / 2) (by norm_num [Prod.ext_iff])
        (by norm_num [Prod.ext_iff]) (by norm_num [Prod.ext_iff]),
      velSpikes_zero ((1 : ℝ) / 2, (1 : ℝ) / 2 + 1 / 4) (by norm_num [Prod.ext_iff])
        (by norm_num [Prod.ext_iff]) (by norm_num [Prod.ext_iff]),
      velSpikes_zero ((1 : ℝ) / 2, (1 : ℝ) / 2 - 1 / 4) (by norm_num [Prod.ext_iff])
        (by norm_num [Prod.ext_iff]) (by norm_num [Prod.ext_iff])]
    norm_num
  have hCp : velSpikesCurl ((2 : ℝ) / 5, (1 : ℝ) / 2) = 20 := by
    show 0.5 * ((velSpikes ((2 : ℝ) / 5 + 1 / 4, (1 : ℝ) / 2)).2
        - (velSpikes ((2 : ℝ) / 5 - 1 / 4, (1 : ℝ) / 2)).2
        - (velSpikes ((2 : ℝ) / 5, (1 : ℝ) / 2 + 1 / 4)).1
        + (velSpikes ((2 : ℝ) / 5, (1 : ℝ) / 2 - 1 / 4)).1) = 20
    rw [velSpikes_eq_two ((2 : ℝ) / 5 + 1 / 4, (1 : ℝ) / 2) (by norm_num [Prod.ext_iff]),
      velSpikes_zero ((2 : ℝ) / 5 - 1 / 4, (1 : ℝ) / 2) (by norm_num [Prod.ext_iff])
        (by norm_num [Prod.ext_iff]) (by norm_num [Prod.ext_iff]),
      velSpikes_zero ((2 : ℝ) / 5, (1 : ℝ) / 2 + 1 / 4) (by norm_num [Prod.ext_iff])
        (by norm_num [Prod.ext_iff]) (by norm_num [Prod.ext_iff]),
      velSpikes_zero ((2 : ℝ) / 5, (1 : ℝ) / 2 - 1 / 4) (by norm_num [Prod.ext_iff])
        (by norm_num [Prod.ext_iff]) (by norm_num [Prod.ext_iff])]
    norm_num
  have hCT : velSpikesCurl ((2 : ℝ) / 5, (3 : ℝ) / 4) = 2 := by
    show 0.5 * ((velSpikes ((2 : ℝ) / 5 + 1 / 4, (3 : ℝ) / 4)).2
        - (velSpikes ((2 : ℝ) / 5 - 1 / 4, (3 : ℝ) / 4)).2
        - (velSpikes ((2 : ℝ) / 5, (3 : ℝ) / 4 + 1 / 4)).1
        + (velSpikes ((2 : ℝ) / 5, (3 : ℝ) / 4 - 1 / 4)).1) = 2
    rw [velSpikes_eq_three ((2 : ℝ) / 5 + 1 / 4, (3 : ℝ) / 4) (by norm_num [Prod.ext_iff]),
      velSpikes_zero ((2 : ℝ) / 5 - 1 / 4, (3 : ℝ) / 4) (by norm_num [Prod.ext_iff])
        (by norm_num [Prod.ext_iff]) (by norm_num [Prod.ext_iff]),
      velSpikes_zero ((2 : ℝ) / 5, (3 : ℝ) / 4 + 1 / 4) (by norm_num [Prod.ext_iff])
        (by norm_num [Prod.ext_iff]) (by norm_num [Prod.ext_iff]),
      velSpikes_zero ((2 : ℝ) / 5, (3 : ℝ) / 4 - 1 / 4) (by norm_num [Prod.ext_iff])
        (by norm_num [Prod.ext_iff]) (by norm_num [Prod.ext_iff])]
    norm_num
  have hCB : velSpikesCurl ((2 : ℝ) / 5, (1 : ℝ) / 4) = 0 := by
    show 0.5 * ((velSpikes ((2 : ℝ) / 5 + 1 / 4, (1 : ℝ) / 4)).2
        - (velSpikes ((2 : ℝ) / 5 - 1 / 4, (1 : ℝ) / 4)).2
        - (velSpikes ((2 : ℝ) / 5, (1 : ℝ) / 4 + 1 / 4)).1
        + (velSpikes ((2 : ℝ) / 5, (1 : ℝ) / 4 - 1 / 4)).1) = 0
    rw [velSpikes_zero ((2 : ℝ) / 5 + 1 / 4, (1 : ℝ) / 4) (by norm_num [Prod.ext_iff])
        (by norm_num [Prod.ext_iff]) (by norm_num [Prod.ext_iff]),
      velSpikes_zero ((2 : ℝ) / 5 - 1 / 4, (1 : ℝ) / 4) (by norm_num [Prod.ext_iff])
        (by norm_num [Prod.ext_iff]) (by norm_num [Prod.ext_iff]),
      velSpikes_zero ((2 : ℝ) / 5, (1 : ℝ) / 4 + 1 / 4) (by norm_num [Prod.ext_iff])
        (by norm_num [Prod.ext_iff]) (by norm_num [Prod.ext_iff]),
      velSpikes_zero ((2 : ℝ) / 5, (1 : ℝ) / 4 - 1 / 4) (by norm_num [Prod.ext_iff])
        (by norm_num [Prod.ext_iff]) (by norm_num [Prod.ext_iff])]
    norm_num
  have hCR : velSpikesCurl ((13 : ℝ) / 20, (1 : ℝ) / 2) = 0 := by
    show 0.5 * ((velSpikes ((13 : ℝ) / 20 + 1 / 4, (1 : ℝ) / 2)).2
        - (velSpikes ((13 : ℝ) / 20 - 1 / 4, (1 : ℝ) / 2)).2
        - (velSpikes ((13 : ℝ) / 20, (1 : ℝ) / 2 + 1 / 4)).1
        + (velSpikes ((13 : ℝ) / 20, (1 : ℝ) / 2 - 1 / 4)).1) = 0
    rw [velSpikes_zero ((13 : ℝ) / 20 + 1 / 4, (1 : ℝ) / 2) (by norm_num [Prod.ext_iff])
        (by norm_num [Prod.ext_iff]) (by norm_num [Prod.ext_iff]),
      velSpikes_zero ((13 : ℝ) / 20 - 1 / 4, (1 : ℝ) / 2) (by norm_num [Prod.ext_iff])
        (by norm_num [Prod.ext_iff]) (by norm_num [Prod.ext_iff]),
      velSpikes_eq_three ((13 : ℝ) / 20, (1 : ℝ) / 2 + 1 / 4) (by norm_num [Prod.ext_iff]),
      velSpikes_zero ((13 : ℝ) / 20, (1 : ℝ) / 2 - 1 / 4) (by norm_num [Prod.ext_iff])
        (by norm_num [Prod.ext_iff]) (by norm_num [Prod.ext_iff])]
    norm_num
  have hCL : velSpikesCurl ((3 : ℝ) / 20, (1 : ℝ) / 2) = 0 := by
    show 0.5 * ((velSpikes ((3 : ℝ) / 20 + 1 / 4, (1 : ℝ) / 2)).2
        - (velSpikes ((3 : ℝ) / 20 - 1 / 4, (1 : ℝ) / 2)).2
        - (velSpikes ((3 : ℝ) / 20, (1 : ℝ) / 2 + 1 / 4)).1
        + (velSpikes ((3 : ℝ) / 20, (1 : ℝ) / 2 - 1 / 4)).1) = 0
    rw [velSpikes_zero ((3 : ℝ) / 20 + 1 / 4, (1 : ℝ) / 2) (by norm_num [Prod.ext_iff])
        (by norm_num [Prod.ext_iff]) (by norm_num [Prod.ext_iff]),
      velSpikes_zero ((3 : ℝ) / 20 - 1 / 4, (1 : ℝ) / 2) (by norm_num [Prod.ext_iff])
        (by norm_num [Prod.ext_iff]) (by norm_num [Prod.ext_iff]),
      velSpikes_zero ((3 : ℝ) / 20, (1 : ℝ) / 2 + 1 / 4) (by norm_num [Prod.ext_iff])
        (by norm_num [Prod.ext_iff]) (by norm_num [Prod.ext_iff]),
      velSpikes_zero ((3 : ℝ) / 20, (1 : ℝ) / 2 - 1 / 4) (by norm_num [Prod.ext_iff])
        (by norm_num [Prod.ext_iff]) (by norm_num [Prod.ext_iff])]
    norm_num
  have hlen : glLength (1, 0) = 1 := by
    rw [glLength]
    norm_num
  have hv2c : velSpikesV2 ((1 : ℝ) / 2, (1 : ℝ) / 2) = (40, 0) := by
    show ((velSpikes ((1 : ℝ) / 2, (1 : ℝ) / 2)).1
        + 10000 * velSpikesCurl ((1 : ℝ) / 2, (1 : ℝ) / 2)
          * ((0.5 * (|velSpikesCurl ((1 : ℝ) / 2, (1 : ℝ) / 2 + 1 / 4)|
                - |velSpikesCurl ((1 : ℝ) / 2, (1 : ℝ) / 2 - 1 / 4)|))
            / (glLength
                (0.5 * (|velSpikesCurl ((1 : ℝ) / 2, (1 : ℝ) / 2 + 1 / 4)|
                  - |velSpikesCurl ((1 : ℝ) / 2, (1 : ℝ) / 2 - 1 / 4)|),
                 0.5 * (|velSpikesCurl ((1 : ℝ) / 2 + 1 / 4, (1 : ℝ) / 2)|
                  - |velSpikesCurl ((1 : ℝ) / 2 - 1 / 4, (1 : ℝ) / 2)|))
              + 0.0001)) * (1 / 100),
        (velSpikes ((1 : ℝ) / 2, (1 : ℝ) / 2)).2
        + (10000 * velSpikesCurl ((1 : ℝ) / 2, (1 : ℝ) / 2)
          * ((0.5 * (|velSpikesCurl ((1 : ℝ) / 2 + 1 / 4, (1 : ℝ) / 2)|
                - |velSpikesCurl ((1 : ℝ) / 2 - 1 / 4, (1 : ℝ) / 2)|))
            / (glLength
                (0.5 * (|velSpikesCurl ((1 : ℝ) / 2, (1 : ℝ) / 2 + 1 / 4)|
                  - |velSpikesCurl ((1 : ℝ) / 2, (1 : ℝ) / 2 - 1 / 4)|),
                 0.5 * (|velSpikesCurl ((1 : ℝ) / 2 + 1 / 4, (1 : ℝ) / 2)|
                  - |velSpikesCurl ((1 : ℝ) / 2 - 1 / 4, (1 : ℝ) / 2)|))
              + 0.0001)) * (-1)) * (1 / 100))
      = ((40 : ℝ), (0 : ℝ))
    rw [velSpikes_eq_one ((1 : ℝ) / 2, (1 : ℝ) / 2) rfl, hC0]
    norm_num
  have hv2p : velSpikesV2 ((2 : ℝ) / 5, (1 : ℝ) / 2) = (20000000 / 10001, 0) := by
    show ((velSpikes ((2 : ℝ) / 5, (1 : ℝ) / 2)).1
        + 10000 * velSpikesCurl ((2 : ℝ) / 5, (1 : ℝ) / 2)
          * ((0.5 * (|velSpikesCurl ((2 : ℝ) / 5, (1 : ℝ) / 2 + 1 / 4)|
                - |velSpikesCurl ((2 : ℝ) / 5, (1 : ℝ) / 2 - 1 / 4)|))
            / (glLength
                (0.5 * (|velSpikesCurl ((2 : ℝ) / 5, (1 : ℝ) / 2 + 1 / 4)|
                  - |velSpikesCurl ((2 : ℝ) / 5, (1 : ℝ) / 2 - 1 / 4)|),
                 0.5 * (|velSpikesCurl ((2 : ℝ) / 5 + 1 / 4, (1 : ℝ) / 2)|
                  - |velSpikesCurl ((2 : ℝ) / 5 - 1 / 4, (1 : ℝ) / 2)|))
              + 0.0001)) * (1 / 100),
        (velSpikes ((2 : ℝ) / 5, (1 : ℝ) / 2)).2
        + (10000 * velSpikesCurl ((2 : ℝ) / 5, (1 : ℝ) / 2)
          * ((0.5 * (|velSpikesCurl ((2 : ℝ) / 5 + 1 / 4, (1 : ℝ) / 2)|
                - |velSpikesCurl ((2 : ℝ) / 5 - 1 / 4, (1 : ℝ) / 2)|))
            / (glLength
                (0.5 * (|velSpikesCurl ((2 : ℝ) / 5, (1 : ℝ) / 2 + 1 / 4)|
                  - |velSpikesCurl ((2 : ℝ) / 5, (1 : ℝ) / 2 - 1 / 4)|),
                 0.5 * (|velSpikesCurl ((2 : ℝ) / 5 + 1 / 4, (1 : ℝ) / 2)|
                  - |velSpikesCurl ((2 : ℝ) / 5 - 1 / 4, (1 : ℝ) / 2)|))
              + 0.0001)) * (-1)) * (1 / 100))
      = ((20000000 : ℝ) / 10001, (0 : ℝ))
    rw [show ((2 : ℝ) / 5, (1 : ℝ) / 2 + 1 / 4) = ((2 : ℝ) / 5, (3 : ℝ) / 4) from by norm_num,
      show ((2 : ℝ) / 5, (1 : ℝ) / 2 - 1 / 4) = ((2 : ℝ) / 5, (1 : ℝ) / 4) from by norm_num,
      show ((2 : ℝ) / 5 + 1 / 4, (1 : ℝ) / 2) = ((13 : ℝ) / 20, (1 : ℝ) / 2) from by norm_num,
      show ((2 : ℝ) / 5 - 1 / 4, (1 : ℝ) / 2) = ((3 : ℝ) / 20, (1 : ℝ) / 2) from by norm_num]
    rw [velSpikes_zero ((2 : ℝ) / 5, (1 : ℝ) / 2) (by norm_num [Prod.ext_iff])
        (by norm_num [Prod.ext_iff]) (by norm_num [Prod.ext_iff])]
    rw [hCp, hCT, hCB, hCR, hCL]
    rw [show (0.5 * (|(2 : ℝ)| - |(0 : ℝ)|), 0.5 * (|(0 : ℝ)| - |(0 : ℝ)|)) = ((1 : ℝ), (0 : ℝ))
      from by norm_num]
    rw [hlen]
    norm_num
  have hv6c : velSpikesV6 ((1 : ℝ) / 2, (1 : ℝ) / 2) = (40, 0) := by
    show ((velSpikesV2 ((1 : ℝ) / 2, (1 : ℝ) / 2)).1 - (0.8 * 0 - 0.8 * 0),
        (velSpikesV2 ((1 : ℝ) / 2, (1 : ℝ) / 2)).2 - (0.8 * 0 - 0.8 * 0))
      = ((40 : ℝ), (0 : ℝ))
    rw [hv2c]
    norm_num
  have hv6p : velSpikesV6 ((2 : ℝ) / 5, (1 : ℝ) / 2) = (20000000 / 10001, 0) := by
    show ((velSpikesV2 ((2 : ℝ) / 5, (1 : ℝ) / 2)).1 - (0.8 * 0 - 0.8 * 0),
        (velSpikesV2 ((2 : ℝ) / 5, (1 : ℝ) / 2)).2 - (0.8 * 0 - 0.8 * 0))
      = ((20000000 : ℝ) / 10001, (0 : ℝ))
    rw [hv2p]
    norm_num
  have hv7 : velSpikesV7 ((1 : ℝ) / 2, (1 : ℝ) / 2) = (19600000 / 10001, 0) := by
    show (0.98 : ℝ) • velSpikesV6
        ((1 : ℝ) / 2 - 1 / 100 * (velSpikesV6 ((1 : ℝ) / 2, (1 : ℝ) / 2)).1 * (1 / 4),
         (1 : ℝ) / 2 - 1 / 100 * (velSpikesV6 ((1 : ℝ) / 2, (1 : ℝ) / 2)).2 * (1 / 4))
      = ((19600000 : ℝ) / 10001, (0 : ℝ))
    rw [hv6c]
    rw [show ((1 : ℝ) / 2 - 1 / 100 * (((40 : ℝ), (0 : ℝ)).1) * (1 / 4),
        (1 : ℝ) / 2 - 1 / 100 * (((40 : ℝ), (0 : ℝ)).2) * (1 / 4))
      = ((2 : ℝ) / 5, (1 : ℝ) / 2) from by norm_num]
    rw [hv6p, Prod.smul_mk]
    norm_num
  have hupd : (FluidSimulation.update cfgHighCurl 10 velSpikeState).velocity.read
      = velSpikesV7 := by
    have hlast : velSpikeState.lastTime = 0 := rfl
    simp only [FluidSimulation.update]
    rw [hlast]
    rw [show dtOf 0 10 = 1 / 100 from by
      rw [dtOf, min_eq_left (by norm_num : ((10 : ℝ) - 0) / 1000 ≤ 0.016666)]
      norm_num]
    rfl
  refine ⟨⟨?_, ?_⟩, ?_, ?_, ?_, ?_, ?_, ?_⟩
  · show (0 : ℝ) < 1 ∧ (1 : ℝ) ≤ 1 ∧ (0 : ℝ) < 1 ∧ (1 : ℝ) ≤ 1 ∧ (0 : ℝ) ≤ 30
      ∧ (0 : ℝ) < 0.25 ∧ (0 : ℝ) < 6000 ∧ (0 : ℚ) < 128 ∧ (0 : ℚ) < 512
    norm_num
  · intro hT
    have hfun : (fun n => ‖(runUpdates cfgNoDecay (fun _ => 0) dyeOneState n).density.read
        ((1 : ℝ) / 2, (1 : ℝ) / 2)‖) = fun _ => (1 : ℝ) := by
      funext n
      have h := congrFun
        ((runUpdates_zero_velocity cfgNoDecay (fun _ => 0) dyeOneState rfl rfl n).2.2)
        ((1 : ℝ) / 2, (1 : ℝ) / 2)
      rw [h]
      show ‖cfgNoDecay.DENSITY_DISSIPATION ^ n • dyeOneState.density.read (1 / 2, 1 / 2)‖ = 1
      have hDD : cfgNoDecay.DENSITY_DISSIPATION = 1 := rfl
      rw [hDD, one_pow, one_smul]
      show ‖((1 : ℝ), (1 : ℝ), (1 : ℝ))‖ = 1
      simp [Prod.norm_def]
    rw [hfun] at hT
    have h01 : (0 : ℝ) = 1 := tendsto_nhds_unique hT tendsto_const_nhds
    norm_num at h01
  · show (0 : ℝ) < 0.97 ∧ (0.97 : ℝ) ≤ 1 ∧ (0 : ℝ) < 0.98 ∧ (0.98 : ℝ) ≤ 1
      ∧ (0 : ℝ) ≤ 10000 ∧ (0 : ℝ) < 0.25 ∧ (0 : ℝ) < 6000 ∧ (0 : ℚ) < 128 ∧ (0 : ℚ) < 512
    norm_num
  · show (0.97 : ℝ) < 1
    norm_num
  · show (0.98 : ℝ) < 1
    norm_num
  · exact velSpikes_eq_one ((1 : ℝ) / 2, (1 : ℝ) / 2) rfl
  · rw [hupd]
    exact hv7
  · rw [show velSpikeState.velocity.read ((1 : ℝ) / 2, (1 : ℝ) / 2) = ((40 : ℝ), (0 : ℝ))
      from velSpikes_eq_one ((1 : ℝ) / 2, (1 : ℝ) / 2) rfl]
    rw [hupd, hv7]
    simp only [Prod.norm_def, Real.norm_eq_abs, abs_zero]
    rw [abs_of_nonneg (by norm_num : (0 : ℝ) ≤ 40),
      abs_of_nonneg (by norm_num : (0 : ℝ) ≤ (19600000 : ℝ) / 10001),
      max_eq_left (by norm_num : (0 : ℝ) ≤ 40),
      max_eq_left (by norm_num : (0 : ℝ) ≤ (19600000 : ℝ) / 10001)]
    norm_num

/-- C9 (amended): the decay guarantee holds in the restricted form the code
supports; both restrictions are forced by `c9_counterexample` (dissipation
exactly 1 leaves the dye unchanged forever, and from a nonzero-velocity
state an invariant-satisfying configuration makes one `update()` grow the
velocity magnitude at a cell far beyond the field's initial bound, so no
dissipation-rate decay holds for general states).  From any state with zero
velocity and zero pressure, and any configuration with
`0 < DENSITY_DISSIPATION < 1`, repeated `update()` calls with no splats keep
velocity at zero and scale the dye pointwise by `DENSITY_DISSIPATION` each
step, so the dye magnitude at every cell equals `dissipation^n` times its
initial value, decreases monotonically, and tends to zero. -/
theorem c9_zero_input_decay (cfg : Config) (nows : ℕ → ℝ) (s : FluidState)
    (hd0 : 0 < cfg.DENSITY_DISSIPATION) (hd1 : cfg.DENSITY_DISSIPATION < 1)
    (hv : s.velocity.read = fun _ => (0, 0)) (hp : s.pressure.read = fun _ => 0)
    (uv : ℝ × ℝ) :
    (∀ n, (runUpdates cfg nows s n).density.read uv
        = cfg.DENSITY_DISSIPATION ^ n • s.density.read uv)
    ∧ (∀ n, (runUpdates cfg nows s n).velocity.read = fun _ => (0, 0))
    ∧ (∀ n, ‖(runUpdates cfg nows s n).density.read uv‖
        = cfg.DENSITY_DISSIPATION ^ n * ‖s.density.read uv‖)
    ∧ Antitone (fun n => ‖(runUpdates cfg nows s n).density.read uv‖)
    ∧ Filter.Tendsto (fun n => ‖(runUpdates cfg nows s n).density.read uv‖)
        Filter.atTop (nhds 0) := by
  have hform : ∀ n, (runUpdates cfg nows s n).density.read uv
      = cfg.DENSITY_DISSIPATION ^ n • s.density.read uv :=
    fun n => congrFun ((runUpdates_zero_velocity cfg nows s hv hp n).2.2) uv
  have hnorm : ∀ n, ‖(runUpdates cfg nows s n).density.read uv‖
      = cfg.DENSITY_DISSIPATION ^ n * ‖s.density.read uv‖ := by
    intro n
    rw [hform n, norm_smul, Real.norm_eq_abs, abs_pow, abs_of_pos hd0]
  refine ⟨hform, fun n => (runUpdates_zero_velocity cfg nows s hv hp n).1, hnorm, ?_, ?_⟩
  · intro a b hab
    show ‖(runUpdates cfg nows s b).density.read uv‖
      ≤ ‖(runUpdates cfg nows s a).density.read uv‖
    rw [hnorm a, hnorm b]
    exact mul_le_mul_of_nonneg_right
      (pow_le_pow_of_le_one hd0.le hd1.le hab) (norm_nonneg _)
  · have hfun : (fun n => ‖(runUpdates cfg nows s n).density.read uv‖)
        = fun n => cfg.DENSITY_DISSIPATION ^ n * ‖s.density.read uv‖ := funext hnorm
    rw [hfun]
    have h := (tendsto_pow_atTop_nhds_zero_of_lt_one hd0.le hd1).mul_const
      ‖s.density.read uv‖
    rw [zero_mul] at h
    exact h

/-- C9 witness: with density dissipation 1/2 and the all-zero engine state,
the dye magnitude at the origin tends to zero under repeated updates. -/
theorem c9_zero_input_decay_witness :
    Filter.Tendsto (fun n => ‖(runUpdates cfgHalf (fun _ => 0) zeroState n).density.read
        (0, 0)‖) Filter.atTop (nhds 0) :=
  (c9_zero_input_decay cfgHalf (fun _ => 0) zeroState (by norm_num [cfgHalf, cfgStd])
    (by norm_num [cfgHalf, cfgStd]) rfl rfl (0, 0)).2.2.2.2

end FluidSpec
